import Mathlib

/-!
Shallow embedding of the VEK platform layer (window/context and unified
input state machine), translated from
`src/VEK/Source/VEK/Platform/Impl/Linux/VPL_LinuxInput.cpp`,
`src/VEK/Source/VEK/Platform/Impl/Linux/VPL_LinuxContext.cpp` and the
corresponding headers.  The Windows implementation
(`VPL_WindowsInput.cpp`, `VPL_WindowsContext.cpp`) realizes the identical
tri-state key/button logic, `PollEvents` shape and gamepad button/axis
getters, so the single embedding below covers both platforms for those
operations.  Machine floats (`float`) are embedded as rationals; `int32_t`
coordinates as `Int`; fixed-size state arrays as total functions on `Nat`
whose writes are guarded by the same bounds checks the C++ performs.
-/

namespace VEK

/-- `enum class InputState : uint8_t { Released = 0, Pressed = 1, Held = 2 }`
from `VPL_Input.hpp`. -/
inductive InputState where
  | Released
  | Pressed
  | Held
deriving DecidableEq, Repr

/-- `static constexpr size_t MAX_KEYS = 256` (`VPL_LinuxInput.hpp`). -/
def MAX_KEYS : Nat := 256

/-- `MAX_MOUSE_BUTTONS = static_cast<size_t>(MouseButton::Count)` = 5. -/
def MAX_MOUSE_BUTTONS : Nat := 5

/-- `static constexpr uint8_t MAX_GAMEPADS = 8` (`VPL_LinuxInput.hpp`). -/
def MAX_GAMEPADS : Nat := 8

/-- `GamepadButton::Count` = 15 (`VPL_Input.hpp`). -/
def GamepadButtonCount : Nat := 15

/-- `GamepadAxis::Count` = 6 (`VPL_Input.hpp`). -/
def GamepadAxisCount : Nat := 6

/-- Array store `a[i] = v` on a state table embedded as a total function. -/
def setIdx {α : Type} (f : Nat → α) (i : Nat) (v : α) : Nat → α :=
  fun j => if j = i then v else f j

/-- `LinuxInput::KeyboardState`: current key table, previous-frame snapshot,
and the four modifier flags. -/
structure KeyboardState where
  keys : Nat → InputState
  previousKeys : Nat → InputState
  modifierStates : Nat → Bool

/-- `LinuxInput::MouseState`: button tables plus position/delta tracking. -/
structure MouseState where
  buttons : Nat → InputState
  previousButtons : Nat → InputState
  x : Int
  y : Int
  deltaX : Int
  deltaY : Int
  lastX : Int
  lastY : Int
  visible : Bool
  captured : Bool

/-- `GamepadState` (`VPL_Input.hpp`): connection flag, display name, raw
button booleans, raw axis samples, deadzone, timestamp. -/
structure GamepadState where
  connected : Bool
  name : String
  buttons : Nat → Bool
  axes : Nat → ℚ
  deadzone : ℚ
  lastUpdateTime : Nat

/-- `LinuxInput::GamepadDevice`: the per-slot device record (fd/thread
omitted: they carry no queried state). -/
structure GamepadDevice where
  connected : Bool
  name : String
  state : GamepadState

/-- The queried state of a `LinuxInput` instance: the `m_initialized` flag
and the mutex-guarded state tables. -/
structure InputSys where
  initialized : Bool
  keyboard : KeyboardState
  mouse : MouseState
  gamepads : Nat → GamepadDevice
  connectedGamepadCount : Nat

/-- `LinuxInput::UpdateKeyState(KeyCode key, bool pressed)`
(`VPL_LinuxInput.cpp:749` and the identical
`WindowsInput::UpdateKeyState`, `VPL_WindowsInput.cpp:793`): bounds-guarded
write decided by the previous-frame snapshot. -/
def UpdateKeyState (kb : KeyboardState) (key : Nat) (pressed : Bool) :
    KeyboardState :=
  if MAX_KEYS ≤ key then kb
  else
    let previousState := kb.previousKeys key
    if pressed then
      if previousState = InputState.Released then
        { kb with keys := setIdx kb.keys key InputState.Pressed }
      else
        { kb with keys := setIdx kb.keys key InputState.Held }
    else
      if previousState ≠ InputState.Released then
        { kb with keys := setIdx kb.keys key InputState.Released }
      else kb

/-- `LinuxInput::UpdateMouseButtonState(MouseButton button, bool pressed)`
(`VPL_LinuxInput.cpp:770`, identically `VPL_WindowsInput.cpp:813`). -/
def UpdateMouseButtonState (ms : MouseState) (button : Nat) (pressed : Bool) :
    MouseState :=
  if MAX_MOUSE_BUTTONS ≤ button then ms
  else
    let previousState := ms.previousButtons button
    if pressed then
      if previousState = InputState.Released then
        { ms with buttons := setIdx ms.buttons button InputState.Pressed }
      else
        { ms with buttons := setIdx ms.buttons button InputState.Held }
    else
      if previousState ≠ InputState.Released then
        { ms with buttons := setIdx ms.buttons button InputState.Released }
      else ms

/-- A raw key edge reaching the state machine (via
`LinuxInput::ProcessX11Event` KeyPress/KeyRelease or
`ProcessKeyboardEvents`): both call `UpdateKeyState` under the state
mutex. -/
def ProcessKeyEvent (s : InputSys) (key : Nat) (pressed : Bool) : InputSys :=
  { s with keyboard := UpdateKeyState s.keyboard key pressed }

/-- A raw mouse-button edge (via `ProcessX11Event`
ButtonPress/ButtonRelease or `ProcessMouseEvents`): both call
`UpdateMouseButtonState` under the state mutex. -/
def ProcessMouseButtonEvent (s : InputSys) (button : Nat) (pressed : Bool) :
    InputSys :=
  { s with mouse := UpdateMouseButtonState s.mouse button pressed }

/-- The per-index body of the promotion loops in `LinuxInput::Update`
(`VPL_LinuxInput.cpp:93-109`): for `i < bound`, if the previous snapshot
was `Pressed` and the current entry is still `Pressed`, it becomes
`Held`; every other entry is left alone. -/
def promoteAt (bound : Nat) (cur prev : Nat → InputState) :
    Nat → InputState :=
  fun i =>
    if i < bound ∧ prev i = InputState.Pressed ∧ cur i = InputState.Pressed
    then InputState.Held else cur i

/-- `LinuxInput::Update()` (`VPL_LinuxInput.cpp:83-120`): early-out when
not initialized; promote stale `Pressed` entries; copy current tables into
the previous-frame snapshots; recompute the mouse delta from the last
sampled position. -/
def Update (s : InputSys) : InputSys :=
  if s.initialized = false then s
  else
    let newKeys := promoteAt MAX_KEYS s.keyboard.keys s.keyboard.previousKeys
    let newButtons :=
      promoteAt MAX_MOUSE_BUTTONS s.mouse.buttons s.mouse.previousButtons
    { s with
      keyboard := { s.keyboard with
        keys := newKeys, previousKeys := newKeys }
      mouse := { s.mouse with
        buttons := newButtons
        previousButtons := newButtons
        deltaX := s.mouse.x - s.mouse.lastX
        deltaY := s.mouse.y - s.mouse.lastY
        lastX := s.mouse.x
        lastY := s.mouse.y } }

/-- `LinuxInput::GetKeyState` (`VPL_LinuxInput.cpp:135-147`, identically
`VPL_WindowsInput.cpp:150-162`). -/
def GetKeyState (s : InputSys) (key : Nat) : InputState :=
  if s.initialized = false then InputState.Released
  else if MAX_KEYS ≤ key then InputState.Released
  else s.keyboard.keys key

/-- `LinuxInput::GetMouseButtonState` (`VPL_LinuxInput.cpp:162-174`). -/
def GetMouseButtonState (s : InputSys) (button : Nat) : InputState :=
  if s.initialized = false then InputState.Released
  else if MAX_MOUSE_BUTTONS ≤ button then InputState.Released
  else s.mouse.buttons button

/-- `LinuxInput::GetGamepadButtonState`
(`VPL_LinuxInput.cpp:260-272`, identically `VPL_WindowsInput.cpp:259`):
bounds/connectivity guards, then the stored button boolean is mapped
`true ↦ Held`, `false ↦ Released`. -/
def GetGamepadButtonState (s : InputSys) (gamepadId button : Nat) :
    InputState :=
  if MAX_GAMEPADS ≤ gamepadId ∨ (s.gamepads gamepadId).connected = false then
    InputState.Released
  else if GamepadButtonCount ≤ button then InputState.Released
  else if (s.gamepads gamepadId).state.buttons button then InputState.Held
  else InputState.Released

/-- `LinuxInput::ApplyDeadzone(float value, float deadzone)`
(`VPL_LinuxInput.cpp:812-825`), with `float` embedded as `ℚ`. -/
def ApplyDeadzone (value deadzone : ℚ) : ℚ :=
  if deadzone ≤ 0 then value
  else
    let absValue := |value|
    if absValue < deadzone then 0
    else
      let scaledValue := (absValue - deadzone) / (1 - deadzone)
      if value < 0 then -scaledValue else scaledValue

/-- `LinuxInput::GetGamepadAxis` (`VPL_LinuxInput.cpp:274-286`): guards,
then the deadzone rescale applied to the stored raw sample at query
time. -/
def GetGamepadAxis (s : InputSys) (gamepadId axis : Nat) : ℚ :=
  if MAX_GAMEPADS ≤ gamepadId ∨ (s.gamepads gamepadId).connected = false then 0
  else if GamepadAxisCount ≤ axis then 0
  else
    ApplyDeadzone ((s.gamepads gamepadId).state.axes axis)
      ((s.gamepads gamepadId).state.deadzone)

/-- The `JS_EVENT_BUTTON` branch of `LinuxInput::GamepadThreadFunction`
(`VPL_LinuxInput.cpp:699-703`): a digital edge stores the raw boolean in
the slot's button table when the button number is in range. -/
def ProcessGamepadButtonEvent (s : InputSys) (gamepadId number : Nat)
    (value : Bool) : InputSys :=
  if number < GamepadButtonCount then
    { s with gamepads := fun j =>
        if j = gamepadId then
          let g := s.gamepads gamepadId
          { g with state :=
              { g.state with buttons := setIdx g.state.buttons number value } }
        else s.gamepads j }
  else s

/-- The `m_keyNames` table populated by `LinuxInput::InitializeKeyMappings`
(`VPL_LinuxInput.cpp:430-462`), keyed by the numeric `KeyCode` values of
`VPL_Input.hpp`. -/
def keyNameTable : List (Nat × String) :=
  [(0x1E, "A"), (0x30, "B"), (0x2E, "C"), (0x20, "D"), (0x12, "E"),
   (0x21, "F"), (0x22, "G"), (0x23, "H"), (0x17, "I"), (0x24, "J"),
   (0x25, "K"), (0x26, "L"), (0x32, "M"), (0x31, "N"), (0x18, "O"),
   (0x19, "P"), (0x10, "Q"), (0x13, "R"), (0x1F, "S"), (0x14, "T"),
   (0x16, "U"), (0x2F, "V"), (0x11, "W"), (0x2D, "X"), (0x15, "Y"),
   (0x2C, "Z"), (0x39, "Space"), (0x1C, "Enter"), (0x01, "Escape"),
   (0x4B, "Left Arrow"), (0x4D, "Right Arrow"), (0x48, "Up Arrow"),
   (0x50, "Down Arrow")]

/-- The `m_mouseButtonNames` table (`VPL_LinuxInput.cpp:465-469`). -/
def mouseButtonNameTable : List (Nat × String) :=
  [(0, "Left Mouse Button"), (1, "Right Mouse Button"),
   (2, "Middle Mouse Button"), (3, "Mouse Button 4"), (4, "Mouse Button 5")]

/-- The `m_gamepadButtonNames` table (`VPL_LinuxInput.cpp:472-486`). -/
def gamepadButtonNameTable : List (Nat × String) :=
  [(0, "A"), (1, "B"), (2, "X"), (3, "Y"), (4, "Left Bumper"),
   (5, "Right Bumper"), (6, "Back"), (7, "Start"), (8, "Guide"),
   (9, "Left Stick"), (10, "Right Stick"), (11, "D-Pad Up"),
   (12, "D-Pad Right"), (13, "D-Pad Down"), (14, "D-Pad Left")]

/-- `LinuxInput::GetKeyName` (`VPL_LinuxInput.cpp:301-304`): map lookup
with the "Unknown" sentinel for unmapped codes. -/
def GetKeyName (key : Nat) : String :=
  (keyNameTable.lookup key).getD "Unknown"

/-- `LinuxInput::GetMouseButtonName` (`VPL_LinuxInput.cpp:306-309`). -/
def GetMouseButtonName (button : Nat) : String :=
  (mouseButtonNameTable.lookup button).getD "Unknown"

/-- `LinuxInput::GetGamepadButtonName` (`VPL_LinuxInput.cpp:311-314`). -/
def GetGamepadButtonName (button : Nat) : String :=
  (gamepadButtonNameTable.lookup button).getD "Unknown"

/-- The member state of a `LinuxContext` (`VPL_LinuxContext.hpp:33-57`).
Pointer handles are embedded as: `display : Bool` (connection open),
`window`/`colormap`/`rootWindow : Nat` (XID, 0 = none),
`glContext : Bool` and `visualInfo : Bool` (non-null pointer). -/
structure LinuxContext where
  display : Bool
  window : Nat
  rootWindow : Nat
  glContext : Bool
  visualInfo : Bool
  colormap : Nat
  screen : Int
  width : Int
  height : Int
  posX : Int
  posY : Int
  fullscreen : Bool
  vsyncEnabled : Bool
  shouldClose : Bool
  visible : Bool
  windowTitle : String
  wmDeleteWindow : Nat

/-- The in-class member initializers of `LinuxContext`
(`VPL_LinuxContext.hpp`): null handles, zero geometry, `fullscreen =
false`, `shouldClose = false`, `visible = true`. -/
def LinuxContext.defaults : LinuxContext :=
  { display := false, window := 0, rootWindow := 0, glContext := false
    visualInfo := false, colormap := 0, screen := 0, width := 0, height := 0
    posX := 0, posY := 0, fullscreen := false, vsyncEnabled := false
    shouldClose := false, visible := true, windowTitle := ""
    wmDeleteWindow := 0 }

/-- Outcomes of the native X11/GLX calls made during window and context
creation, supplied as an environment: `glXChooseVisual`,
`XCreateColormap`, `XCreateWindow`, `glXCreateContext`,
`glXMakeCurrent`, `gladLoadGL`. -/
structure X11Env where
  visualOk : Bool
  colormapId : Nat
  windowId : Nat
  glCtxOk : Bool
  makeCurrentOk : Bool
  gladOk : Bool

/-- `LinuxContext::LinuxContext()` (`VPL_LinuxContext.cpp:24-39`): if
`XOpenDisplay` fails the constructor returns early leaving the member
defaults; otherwise it records the screen, root window and WM atoms. -/
def LinuxContext.construct (displayOpened : Bool) (screenV rootV atomV : Nat) :
    LinuxContext :=
  if displayOpened = false then LinuxContext.defaults
  else
    { LinuxContext.defaults with
      display := true, screen := Int.ofNat screenV, rootWindow := rootV
      wmDeleteWindow := atomV }

/-- `LinuxContext::ShouldClose()` (`VPL_LinuxContext.hpp:110`). -/
def ShouldClose (ctx : LinuxContext) : Bool := ctx.shouldClose

/-- `LinuxContext::IsWindowFullscreen()` (`VPL_LinuxContext.hpp:79`). -/
def IsWindowFullscreen (ctx : LinuxContext) : Bool := ctx.fullscreen

/-- `LinuxContext::GetNativeWindowHandle()` (`VPL_LinuxContext.hpp:104`):
the `m_window` XID reinterpreted as a handle (0 = no window). -/
def GetNativeWindowHandle (ctx : LinuxContext) : Nat := ctx.window

/-- `LinuxContext::GetGraphicsContextHandle()` (`VPL_LinuxContext.hpp:106`):
whether `m_glContext` is a non-null context pointer. -/
def GetGraphicsContextHandle (ctx : LinuxContext) : Bool := ctx.glContext

/-- `LinuxContext::InitializeGraphicsContext()`
(`VPL_LinuxContext.cpp:328-356`): guarded by display/window/visual;
failures of context creation, `glXMakeCurrent` or GLAD loading report
`false` and leave `m_glContext` null. -/
def InitializeGraphicsContext (ctx : LinuxContext) (env : X11Env) :
    Bool × LinuxContext :=
  if ctx.display = false ∨ ctx.window = 0 ∨ ctx.visualInfo = false then
    (false, ctx)
  else if env.glCtxOk = false then (false, ctx)
  else if env.makeCurrentOk = false then (false, { ctx with glContext := false })
  else if env.gladOk = false then (false, { ctx with glContext := false })
  else (true, { ctx with glContext := true })

/-- `LinuxContext::CreateWindow(width, height, title)`
(`VPL_LinuxContext.cpp:69-138`): fails immediately with no state change
when `m_display` is null; otherwise records geometry/title, negotiates a
visual, creates colormap and window, and finishes by returning
`InitializeGraphicsContext()`. -/
def CreateWindow (ctx : LinuxContext) (env : X11Env) (width height : Int)
    (title : String) : Bool × LinuxContext :=
  if ctx.display = false then (false, ctx)
  else
    let c1 := { ctx with width := width, height := height
                         windowTitle := title }
    if env.visualOk = false then (false, c1)
    else
      let c2 := { c1 with visualInfo := true, colormap := env.colormapId
                          window := env.windowId }
      if env.windowId = 0 then (false, c2)
      else InitializeGraphicsContext c2 env

/-- The X11 events dispatched by `LinuxContext::HandleEvent`
(`VPL_LinuxContext.cpp:401-438`); `clientMessage` carries
`event.xclient.data.l[0]` as an atom. -/
inductive XEventKind where
  | clientMessage (atom : Nat)
  | configureNotify (w h x y : Int)
  | mapNotify
  | unmapNotify
  | destroyNotify
  | other
deriving DecidableEq, Repr

/-- The context-bookkeeping switch of `LinuxContext::HandleEvent`
(`VPL_LinuxContext.cpp:401-438`); the input-forwarding call touches only
the registered `LinuxInput` (modelled by `ProcessKeyEvent` /
`ProcessMouseButtonEvent`), never the context members. -/
def HandleEvent (ctx : LinuxContext) (e : XEventKind) : LinuxContext :=
  match e with
  | XEventKind.clientMessage atom =>
      if atom = ctx.wmDeleteWindow then { ctx with shouldClose := true }
      else ctx
  | XEventKind.configureNotify w h x y =>
      { ctx with width := w, height := h, posX := x, posY := y }
  | XEventKind.mapNotify => { ctx with visible := true }
  | XEventKind.unmapNotify => { ctx with visible := false }
  | XEventKind.destroyNotify => { ctx with shouldClose := true }
  | XEventKind.other => ctx

/-- `LinuxContext::ProcessMessages()` (`VPL_LinuxContext.cpp:393-399`):
drain the pending event queue through `HandleEvent`. -/
def ProcessMessages (ctx : LinuxContext) (pending : List XEventKind) :
    LinuxContext :=
  pending.foldl HandleEvent ctx

/-- `LinuxContext::PollEvents()` (`VPL_LinuxContext.cpp:378-381`,
same shape as `WindowsContext::PollEvents`, `VPL_WindowsContext.cpp:341`):
process pending messages, then report `!m_shouldClose`. -/
def PollEvents (ctx : LinuxContext) (pending : List XEventKind) :
    Bool × LinuxContext :=
  let c := ProcessMessages ctx pending
  (!c.shouldClose, c)

/-- `LinuxContext::SetWindowFullscreen(bool)`
(`VPL_LinuxContext.cpp:234-255`): early-out when the requested state
equals the current one; otherwise record the new state and, when a window
exists, send the `_NET_WM_STATE` client message (the returned `Bool`
records whether that message was sent). -/
def SetWindowFullscreen (ctx : LinuxContext) (fullscreen : Bool) :
    LinuxContext × Bool :=
  if ctx.fullscreen = fullscreen then (ctx, false)
  else
    let c := { ctx with fullscreen := fullscreen }
    if c.window ≠ 0 then (c, true) else (c, false)

/-- The zero-initialized `KeyboardState` (`std::array<InputState, ...>{}`
value-initializes every entry to `Released = 0`). -/
def idleKeyboard : KeyboardState :=
  { keys := fun _ => InputState.Released
    previousKeys := fun _ => InputState.Released
    modifierStates := fun _ => false }

/-- The default-constructed `MouseState` (`VPL_LinuxInput.hpp:47-55`). -/
def idleMouse : MouseState :=
  { buttons := fun _ => InputState.Released
    previousButtons := fun _ => InputState.Released
    x := 0, y := 0, deltaX := 0, deltaY := 0, lastX := 0, lastY := 0
    visible := true, captured := false }

/-- The default-constructed `GamepadDevice` slot: disconnected, zeroed
state. -/
def emptyPad : GamepadDevice :=
  { connected := false, name := ""
    state := { connected := false, name := ""
               buttons := fun _ => false, axes := fun _ => 0
               deadzone := 0, lastUpdateTime := 0 } }

/-- A `LinuxInput` instance right after a successful `Initialize()` with
no device traffic yet: every table zeroed, `m_initialized = true`. -/
def freshInput : InputSys :=
  { initialized := true, keyboard := idleKeyboard, mouse := idleMouse
    gamepads := fun _ => emptyPad, connectedGamepadCount := 0 }

/-- A gamepad slot as left by `LinuxInput::ConnectGamepad`
(`VPL_LinuxInput.cpp:618-656`) on success: connected, deadzone `0.15`,
buttons and axes zeroed. -/
def connectedPad (nm : String) : GamepadDevice :=
  { connected := true, name := nm
    state := { connected := true, name := nm
               buttons := fun _ => false, axes := fun _ => 0
               deadzone := 15 / 100, lastUpdateTime := 0 } }

/-- `freshInput` with gamepad slot 0 connected (the state after
`ScanForGamepads` found one joystick device). -/
def inputWithPad : InputSys :=
  { freshInput with
    gamepads := setIdx (fun _ => emptyPad) 0 (connectedPad "js0")
    connectedGamepadCount := 1 }

/-- A `LinuxInput` instance before `Initialize()` (or after
`Shutdown()`, which resets `m_initialized` to `false`). -/
def uninitInput : InputSys := { freshInput with initialized := false }

/-- A `LinuxContext` whose constructor failed to open the X11 display:
every member keeps its in-class default. -/
def noDisplayContext : LinuxContext := LinuxContext.construct false 0 0 0

/-- A context with an open display and a created window (XID 42). -/
def windowedContext : LinuxContext :=
  { LinuxContext.defaults with display := true, window := 42 }

/-!  ## Claim theorems  -/

/-- C1: for every keyboard key (and mouse button), a raw down-edge applied
when the previous-frame snapshot is Released, followed by one Update(),
leaves the key observable as Pressed; a second Update() with no
intervening edge leaves it observable as Held — Pressed is observable for
exactly one Update() cycle. -/
theorem pressed_exactly_one_update_cycle (s : InputSys) (k b : Nat)
    (hk : k < MAX_KEYS) (hb : b < MAX_MOUSE_BUTTONS)
    (hinit : s.initialized = true)
    (hprevK : s.keyboard.previousKeys k = InputState.Released)
    (hprevB : s.mouse.previousButtons b = InputState.Released) :
    (GetKeyState (Update (ProcessKeyEvent s k true)) k = InputState.Pressed ∧
      GetKeyState (Update (Update (ProcessKeyEvent s k true))) k =
        InputState.Held) ∧
    (GetMouseButtonState (Update (ProcessMouseButtonEvent s b true)) b =
        InputState.Pressed ∧
      GetMouseButtonState (Update (Update (ProcessMouseButtonEvent s b true)))
        b = InputState.Held) := by
  have hk' : ¬ MAX_KEYS ≤ k := Nat.not_le.mpr hk
  have hb' : ¬ MAX_MOUSE_BUTTONS ≤ b := Nat.not_le.mpr hb
  refine ⟨⟨?_, ?_⟩, ?_, ?_⟩ <;>
    simp [ProcessKeyEvent, ProcessMouseButtonEvent, UpdateKeyState,
      UpdateMouseButtonState, Update, GetKeyState, GetMouseButtonState,
      promoteAt, setIdx, hinit, hprevK, hprevB, hk', hb', hk, hb]

/-- Witness for C1: key A (scancode 0x1E = 30) and the left mouse button
on a freshly initialized instance. -/
theorem pressed_exactly_one_update_cycle_witness :
    (30 : Nat) < MAX_KEYS ∧ (0 : Nat) < MAX_MOUSE_BUTTONS ∧
    freshInput.initialized = true ∧
    freshInput.keyboard.previousKeys 30 = InputState.Released ∧
    freshInput.mouse.previousButtons 0 = InputState.Released ∧
    ((GetKeyState (Update (ProcessKeyEvent freshInput 30 true)) 30 =
        InputState.Pressed ∧
      GetKeyState (Update (Update (ProcessKeyEvent freshInput 30 true))) 30 =
        InputState.Held) ∧
     (GetMouseButtonState (Update (ProcessMouseButtonEvent freshInput 0 true))
        0 = InputState.Pressed ∧
      GetMouseButtonState
        (Update (Update (ProcessMouseButtonEvent freshInput 0 true))) 0 =
        InputState.Held)) :=
  ⟨by decide, by decide, rfl, rfl, rfl,
    pressed_exactly_one_update_cycle freshInput 30 0 (by decide) (by decide)
      rfl rfl rfl⟩

/-- C2 counterexample: on a freshly initialized instance, a down-edge for
key 30 followed by an up-edge with no Update() in between leaves the
queried state Pressed, not Released: the up-edge consults the
previous-frame snapshot (still Released) and is therefore dropped. -/
theorem immediate_release_counterexample :
    GetKeyState (ProcessKeyEvent (ProcessKeyEvent freshInput 30 true) 30
        false) 30 = InputState.Pressed ∧
    InputState.Pressed ≠ InputState.Released :=
  ⟨rfl, by decide⟩

/-- C2 as amended: a raw up-edge sets the state to Released exactly when
the previous-frame snapshot is not Released (so it is dropped when the
snapshot still reads Released); consequently a down-edge followed by an
up-edge before any Update() leaves the queried state Pressed — the
release is deferred until a snapshot has recorded the press. -/
theorem up_edge_snapshot_gated (s : InputSys) (k b : Nat)
    (hk : k < MAX_KEYS) (hb : b < MAX_MOUSE_BUTTONS) :
    ((ProcessKeyEvent s k false).keyboard.keys k =
      if s.keyboard.previousKeys k ≠ InputState.Released then
        InputState.Released
      else s.keyboard.keys k) ∧
    (s.initialized = true → s.keyboard.previousKeys k = InputState.Released →
      GetKeyState (ProcessKeyEvent (ProcessKeyEvent s k true) k false) k =
        InputState.Pressed) ∧
    ((ProcessMouseButtonEvent s b false).mouse.buttons b =
      if s.mouse.previousButtons b ≠ InputState.Released then
        InputState.Released
      else s.mouse.buttons b) ∧
    (s.initialized = true →
      s.mouse.previousButtons b = InputState.Released →
      GetMouseButtonState
        (ProcessMouseButtonEvent (ProcessMouseButtonEvent s b true) b false)
        b = InputState.Pressed) := by
  have hk' : ¬ MAX_KEYS ≤ k := Nat.not_le.mpr hk
  have hb' : ¬ MAX_MOUSE_BUTTONS ≤ b := Nat.not_le.mpr hb
  refine ⟨?_, ?_, ?_, ?_⟩
  · by_cases hpk : s.keyboard.previousKeys k = InputState.Released <;>
      simp [ProcessKeyEvent, UpdateKeyState, if_neg hk', hpk, setIdx]
  · intro hinit hprev
    simp [ProcessKeyEvent, UpdateKeyState, GetKeyState, setIdx, hinit, hprev,
      hk', hk]
  · by_cases hpb : s.mouse.previousButtons b = InputState.Released <;>
      simp [ProcessMouseButtonEvent, UpdateMouseButtonState, if_neg hb', hpb,
        setIdx]
  · intro hinit hprev
    simp [ProcessMouseButtonEvent, UpdateMouseButtonState,
      GetMouseButtonState, setIdx, hinit, hprev, hb', hb]

/-- Witness for the amended C2: key 30 and mouse button 0 on a fresh
instance, every hypothesis discharged concretely. -/
theorem up_edge_snapshot_gated_witness :
    (30 : Nat) < MAX_KEYS ∧ (0 : Nat) < MAX_MOUSE_BUTTONS ∧
    ((ProcessKeyEvent freshInput 30 false).keyboard.keys 30 =
      if freshInput.keyboard.previousKeys 30 ≠ InputState.Released then
        InputState.Released
      else freshInput.keyboard.keys 30) ∧
    GetKeyState
      (ProcessKeyEvent (ProcessKeyEvent freshInput 30 true) 30 false) 30 =
      InputState.Pressed ∧
    ((ProcessMouseButtonEvent freshInput 0 false).mouse.buttons 0 =
      if freshInput.mouse.previousButtons 0 ≠ InputState.Released then
        InputState.Released
      else freshInput.mouse.buttons 0) ∧
    GetMouseButtonState
      (ProcessMouseButtonEvent (ProcessMouseButtonEvent freshInput 0 true)
        0 false) 0 = InputState.Pressed := by
  have T := up_edge_snapshot_gated freshInput 30 0 (by decide) (by decide)
  exact ⟨by decide, by decide, T.1, T.2.1 rfl rfl, T.2.2.1, T.2.2.2 rfl rfl⟩

/-- C3: for every keyboard key and mouse button, a raw down-edge sets the
current state to Pressed when the previous-frame snapshot is Released,
and to Held in every other case. -/
theorem down_edge_pressed_or_held (s : InputSys) (k b : Nat)
    (hk : k < MAX_KEYS) (hb : b < MAX_MOUSE_BUTTONS) :
    ((ProcessKeyEvent s k true).keyboard.keys k =
      if s.keyboard.previousKeys k = InputState.Released then
        InputState.Pressed
      else InputState.Held) ∧
    ((ProcessMouseButtonEvent s b true).mouse.buttons b =
      if s.mouse.previousButtons b = InputState.Released then
        InputState.Pressed
      else InputState.Held) := by
  have hk' : ¬ MAX_KEYS ≤ k := Nat.not_le.mpr hk
  have hb' : ¬ MAX_MOUSE_BUTTONS ≤ b := Nat.not_le.mpr hb
  constructor
  · by_cases hpk : s.keyboard.previousKeys k = InputState.Released <;>
      simp [ProcessKeyEvent, UpdateKeyState, if_neg hk', hpk, setIdx]
  · by_cases hpb : s.mouse.previousButtons b = InputState.Released <;>
      simp [ProcessMouseButtonEvent, UpdateMouseButtonState, if_neg hb', hpb,
        setIdx]

/-- Witness for C3: key 30 and button 0 on a fresh instance. -/
theorem down_edge_pressed_or_held_witness :
    (30 : Nat) < MAX_KEYS ∧ (0 : Nat) < MAX_MOUSE_BUTTONS ∧
    (((ProcessKeyEvent freshInput 30 true).keyboard.keys 30 =
      if freshInput.keyboard.previousKeys 30 = InputState.Released then
        InputState.Pressed
      else InputState.Held) ∧
    ((ProcessMouseButtonEvent freshInput 0 true).mouse.buttons 0 =
      if freshInput.mouse.previousButtons 0 = InputState.Released then
        InputState.Pressed
      else InputState.Held)) :=
  ⟨by decide, by decide,
    down_edge_pressed_or_held freshInput 30 0 (by decide) (by decide)⟩

/-- C10: while m_initialized is false (before Initialize() has succeeded,
or after Shutdown() reset it), GetKeyState and GetMouseButtonState return
Released for every code and Update() is a no-op leaving the whole input
state unchanged. -/
theorem uninitialized_safe_defaults (s : InputSys)
    (h : s.initialized = false) :
    (∀ k, GetKeyState s k = InputState.Released) ∧
    (∀ b, GetMouseButtonState s b = InputState.Released) ∧
    Update s = s := by
  refine ⟨fun k => ?_, fun b => ?_, ?_⟩ <;>
    simp [GetKeyState, GetMouseButtonState, Update, h]

/-- Witness for C10: the uninitialized instance, queried at key 30 and
button 0. -/
theorem uninitialized_safe_defaults_witness :
    uninitInput.initialized = false ∧
    GetKeyState uninitInput 30 = InputState.Released ∧
    GetMouseButtonState uninitInput 0 = InputState.Released ∧
    Update uninitInput = uninitInput := by
  have T := uninitialized_safe_defaults uninitInput rfl
  exact ⟨rfl, T.1 30, T.2.1 0, T.2.2⟩

/-- C4 counterexample: gamepad 0 is connected and a raw down-edge has been
stored for button 0, yet the query observes Held (never Pressed); before
the edge it observes Released. No query outcome is ever Pressed because
the getter maps the stored boolean straight to Held/Released. -/
theorem gamepad_pressed_never_observed :
    (inputWithPad.gamepads 0).connected = true ∧
    GetGamepadButtonState (ProcessGamepadButtonEvent inputWithPad 0 0 true)
      0 0 = InputState.Held ∧
    InputState.Held ≠ InputState.Pressed ∧
    GetGamepadButtonState inputWithPad 0 0 = InputState.Released :=
  ⟨rfl, rfl, by decide, rfl⟩

/-- C4 as amended: gamepad buttons are governed by a two-state model, not
the tri-state keyboard automaton: for a connected gamepad and valid
button, GetGamepadButtonState maps the stored raw boolean to Held when
set and Released when clear, and no state ever makes it return
Pressed. -/
theorem gamepad_buttons_two_state (s : InputSys) (gamepadId button : Nat)
    (hid : gamepadId < MAX_GAMEPADS)
    (hconn : (s.gamepads gamepadId).connected = true)
    (hbtn : button < GamepadButtonCount) :
    GetGamepadButtonState s gamepadId button =
      (if (s.gamepads gamepadId).state.buttons button then InputState.Held
       else InputState.Released) ∧
    (∀ s2 id2 btn2,
      GetGamepadButtonState s2 id2 btn2 ≠ InputState.Pressed) := by
  constructor
  · simp [GetGamepadButtonState, Nat.not_le.mpr hid, hconn,
      Nat.not_le.mpr hbtn]
  · intro s2 id2 btn2
    simp only [GetGamepadButtonState]
    split_ifs <;> simp

/-- Witness for the amended C4: connected slot 0, button 0, both before
and after a down-edge. -/
theorem gamepad_buttons_two_state_witness :
    (0 : Nat) < MAX_GAMEPADS ∧
    (inputWithPad.gamepads 0).connected = true ∧
    (0 : Nat) < GamepadButtonCount ∧
    GetGamepadButtonState inputWithPad 0 0 =
      (if (inputWithPad.gamepads 0).state.buttons 0 then InputState.Held
       else InputState.Released) ∧
    GetGamepadButtonState (ProcessGamepadButtonEvent inputWithPad 0 0 true)
      0 0 ≠ InputState.Pressed := by
  have T := gamepad_buttons_two_state inputWithPad 0 0 (by decide) rfl
    (by decide)
  exact ⟨by decide, rfl, by decide, T.1,
    T.2 (ProcessGamepadButtonEvent inputWithPad 0 0 true) 0 0⟩

/-- C5: for a connected gamepad and valid axis, GetGamepadAxis applies the
deadzone to the stored raw sample at query time; for any raw sample v and
deadzone d in [0,1) the result is exactly 0 when the magnitude is below
d, and otherwise the sign-preserving rescale sign(v)*(|v|-d)/(1-d),
which is 0 at the boundary magnitude, so there is no discontinuity
there. -/
theorem deadzone_query_time_rescale (s : InputSys) (gamepadId axis : Nat)
    (hid : gamepadId < MAX_GAMEPADS)
    (hconn : (s.gamepads gamepadId).connected = true)
    (haxis : axis < GamepadAxisCount) :
    GetGamepadAxis s gamepadId axis =
      ApplyDeadzone ((s.gamepads gamepadId).state.axes axis)
        ((s.gamepads gamepadId).state.deadzone) ∧
    (∀ v d : ℚ, 0 ≤ d → d < 1 →
      (|v| < d → ApplyDeadzone v d = 0) ∧
      (d ≤ |v| →
        ApplyDeadzone v d =
          (if v < 0 then -((|v| - d) / (1 - d)) else (|v| - d) / (1 - d))) ∧
      (|v| = d → ApplyDeadzone v d = 0)) := by
  constructor
  · simp [GetGamepadAxis, Nat.not_le.mpr hid, hconn, Nat.not_le.mpr haxis]
  · intro v d hd0 hd1
    by_cases hdz : d ≤ 0
    · have hd : d = 0 := le_antisymm hdz hd0
      subst hd
      refine ⟨fun habs => absurd habs (abs_nonneg v).not_lt, fun _ => ?_,
        fun habs => ?_⟩
      · simp only [ApplyDeadzone, if_pos le_rfl]
        rcases lt_or_le v 0 with hv | hv
        · rw [if_pos hv, abs_of_neg hv]; ring
        · rw [if_neg (not_lt.mpr hv), abs_of_nonneg hv]; ring
      · have hv : v = 0 := abs_eq_zero.mp habs
        simp [ApplyDeadzone, hv]
    · push_neg at hdz
      refine ⟨fun habs => ?_, fun hge => ?_, fun habs => ?_⟩
      · simp [ApplyDeadzone, not_le.mpr hdz, habs]
      · simp [ApplyDeadzone, not_le.mpr hdz, not_lt.mpr hge]
      · have hnotlt : ¬ |v| < d := by rw [habs]; exact lt_irrefl d
        simp only [ApplyDeadzone, if_neg (not_le.mpr hdz), if_neg hnotlt,
          habs, sub_self, zero_div]
        split <;> simp

/-- Witness for C5: connected slot 0, axis 0, with the default deadzone
0.15 evaluated below the deadzone (v = 1/10) and above it (v = 1/2). -/
theorem deadzone_query_time_rescale_witness :
    (0 : Nat) < MAX_GAMEPADS ∧
    (inputWithPad.gamepads 0).connected = true ∧
    (0 : Nat) < GamepadAxisCount ∧
    GetGamepadAxis inputWithPad 0 0 =
      ApplyDeadzone ((inputWithPad.gamepads 0).state.axes 0)
        ((inputWithPad.gamepads 0).state.deadzone) ∧
    (0 : ℚ) ≤ 15 / 100 ∧ (15 / 100 : ℚ) < 1 ∧
    |(1 : ℚ) / 10| < 15 / 100 ∧ ApplyDeadzone (1 / 10) (15 / 100) = 0 ∧
    (15 / 100 : ℚ) ≤ |(1 : ℚ) / 2| ∧
    ApplyDeadzone (1 / 2) (15 / 100) =
      (if (1 : ℚ) / 2 < 0 then
        -((|(1 : ℚ) / 2| - 15 / 100) / (1 - 15 / 100))
       else (|(1 : ℚ) / 2| - 15 / 100) / (1 - 15 / 100)) := by
  have T := deadzone_query_time_rescale inputWithPad 0 0 (by decide) rfl
    (by decide)
  refine ⟨by decide, rfl, by decide, T.1, by norm_num, by norm_num,
    by norm_num [abs], ?_, by norm_num [abs], ?_⟩
  · exact (T.2 (1 / 10) (15 / 100) (by norm_num) (by norm_num)).1
      (by norm_num [abs])
  · exact (T.2 (1 / 2) (15 / 100) (by norm_num) (by norm_num)).2.1
      (by norm_num [abs])

/-- C6: CreateWindow with no native display connection returns false and
changes nothing; on the default-constructed no-display context,
ShouldClose and IsWindowFullscreen keep their default false and no window
or graphics-context handle is observable. -/
theorem createwindow_no_display (ctx : LinuxContext) (env : X11Env)
    (w h : Int) (t : String) (hdisp : ctx.display = false) :
    (CreateWindow ctx env w h t).1 = false ∧
    (CreateWindow ctx env w h t).2 = ctx ∧
    ShouldClose (CreateWindow noDisplayContext env w h t).2 = false ∧
    IsWindowFullscreen (CreateWindow noDisplayContext env w h t).2 = false ∧
    GetNativeWindowHandle (CreateWindow noDisplayContext env w h t).2 = 0 ∧
    GetGraphicsContextHandle (CreateWindow noDisplayContext env w h t).2 =
      false := by
  have hnd : CreateWindow noDisplayContext env w h t =
      (false, noDisplayContext) := by
    simp [CreateWindow, noDisplayContext, LinuxContext.construct,
      LinuxContext.defaults]
  refine ⟨?_, ?_, ?_, ?_, ?_, ?_⟩ <;>
    simp [CreateWindow, hdisp, hnd, ShouldClose, IsWindowFullscreen,
      GetNativeWindowHandle, GetGraphicsContextHandle, noDisplayContext,
      LinuxContext.construct, LinuxContext.defaults]

/-- Witness for C6: CreateWindow(800, 600, "T") on the no-display context
with every native call set to succeed. -/
theorem createwindow_no_display_witness :
    noDisplayContext.display = false ∧
    (CreateWindow noDisplayContext ⟨true, 1, 7, true, true, true⟩ 800 600
      "T").1 = false ∧
    (CreateWindow noDisplayContext ⟨true, 1, 7, true, true, true⟩ 800 600
      "T").2 = noDisplayContext ∧
    ShouldClose (CreateWindow noDisplayContext ⟨true, 1, 7, true, true, true⟩
      800 600 "T").2 = false ∧
    IsWindowFullscreen (CreateWindow noDisplayContext
      ⟨true, 1, 7, true, true, true⟩ 800 600 "T").2 = false ∧
    GetNativeWindowHandle (CreateWindow noDisplayContext
      ⟨true, 1, 7, true, true, true⟩ 800 600 "T").2 = 0 ∧
    GetGraphicsContextHandle (CreateWindow noDisplayContext
      ⟨true, 1, 7, true, true, true⟩ 800 600 "T").2 = false := by
  have T := createwindow_no_display noDisplayContext
    ⟨true, 1, 7, true, true, true⟩ 800 600 "T" rfl
  exact ⟨rfl, T.1, T.2.1, T.2.2.1, T.2.2.2.1, T.2.2.2.2.1, T.2.2.2.2.2⟩

/-- C7: every out-of-range enumerated index passed to a state getter
yields a safe default: Released beyond the key/button table sizes,
0 for an invalid gamepad id or axis, and the "Unknown" sentinel for any
unmapped name-table code. -/
theorem out_of_range_safe_defaults :
    (∀ s k, MAX_KEYS ≤ k → GetKeyState s k = InputState.Released) ∧
    (∀ s b, MAX_MOUSE_BUTTONS ≤ b →
      GetMouseButtonState s b = InputState.Released) ∧
    (∀ s gamepadId button, MAX_GAMEPADS ≤ gamepadId ∨
        GamepadButtonCount ≤ button →
      GetGamepadButtonState s gamepadId button = InputState.Released) ∧
    (∀ s gamepadId axis, MAX_GAMEPADS ≤ gamepadId ∨
        GamepadAxisCount ≤ axis →
      GetGamepadAxis s gamepadId axis = 0) ∧
    (∀ k, keyNameTable.lookup k = none → GetKeyName k = "Unknown") ∧
    (∀ b, mouseButtonNameTable.lookup b = none →
      GetMouseButtonName b = "Unknown") ∧
    (∀ b, gamepadButtonNameTable.lookup b = none →
      GetGamepadButtonName b = "Unknown") := by
  refine ⟨fun s k hk => ?_, fun s b hb => ?_, fun s i btn hi => ?_,
    fun s i ax hi => ?_, fun k hk => ?_, fun b hb => ?_, fun b hb => ?_⟩
  · simp [GetKeyState, hk]
  · simp [GetMouseButtonState, hb]
  · rcases hi with hi | hi
    · simp [GetGamepadButtonState, hi]
    · simp only [GetGamepadButtonState, if_pos, hi]
      split_ifs <;> simp_all
  · rcases hi with hi | hi
    · simp [GetGamepadAxis, hi]
    · simp only [GetGamepadAxis, hi]
      split_ifs <;> simp_all
  · simp [GetKeyName, hk]
  · simp [GetMouseButtonName, hb]
  · simp [GetGamepadButtonName, hb]

/-- Witness for C7: key 300, mouse button 7, gamepad 9, axis 6, and the
unmapped name codes 255 / 5 / 15. -/
theorem out_of_range_safe_defaults_witness :
    MAX_KEYS ≤ 300 ∧ GetKeyState freshInput 300 = InputState.Released ∧
    MAX_MOUSE_BUTTONS ≤ 7 ∧
    GetMouseButtonState freshInput 7 = InputState.Released ∧
    (MAX_GAMEPADS ≤ 9 ∨ GamepadButtonCount ≤ 0) ∧
    GetGamepadButtonState freshInput 9 0 = InputState.Released ∧
    (MAX_GAMEPADS ≤ 0 ∨ GamepadAxisCount ≤ 6) ∧
    GetGamepadAxis inputWithPad 0 6 = 0 ∧
    keyNameTable.lookup 255 = none ∧ GetKeyName 255 = "Unknown" ∧
    mouseButtonNameTable.lookup 5 = none ∧
    GetMouseButtonName 5 = "Unknown" ∧
    gamepadButtonNameTable.lookup 15 = none ∧
    GetGamepadButtonName 15 = "Unknown" := by
  have T := out_of_range_safe_defaults
  exact ⟨by decide, T.1 freshInput 300 (by decide), by decide,
    T.2.1 freshInput 7 (by decide), Or.inl (by decide),
    T.2.2.1 freshInput 9 0 (Or.inl (by decide)), Or.inr (by decide),
    T.2.2.2.1 inputWithPad 0 6 (Or.inr (by decide)), rfl,
    T.2.2.2.2.1 255 rfl, rfl, T.2.2.2.2.2.1 5 rfl, rfl,
    T.2.2.2.2.2.2 15 rfl⟩

/-- C8: PollEvents returns the negation of the shouldClose flag; handling
a window-close client message sets shouldClose, and no event ever changes
the window, colormap, visual-info or GL-context handles. -/
theorem poll_events_close_request (ctx : LinuxContext)
    (pending : List XEventKind) (e : XEventKind) :
    (PollEvents ctx pending).1 = !(PollEvents ctx pending).2.shouldClose ∧
    (HandleEvent ctx
      (XEventKind.clientMessage ctx.wmDeleteWindow)).shouldClose = true ∧
    (HandleEvent ctx e).window = ctx.window ∧
    (HandleEvent ctx e).colormap = ctx.colormap ∧
    (HandleEvent ctx e).visualInfo = ctx.visualInfo ∧
    (HandleEvent ctx e).glContext = ctx.glContext := by
  refine ⟨rfl, by simp [HandleEvent], ?_, ?_, ?_, ?_⟩ <;>
    cases e <;> simp [HandleEvent] <;> split_ifs <;> rfl

/-- C9: SetWindowFullscreen is idempotent: a second call with the same
argument leaves the state of the first call unchanged and sends no
window-manager message, and a call whose requested state equals the
current one is a complete no-op. -/
theorem fullscreen_idempotent (ctx : LinuxContext) (b : Bool) :
    SetWindowFullscreen (SetWindowFullscreen ctx b).1 b =
      ((SetWindowFullscreen ctx b).1, false) ∧
    (ctx.fullscreen = b → SetWindowFullscreen ctx b = (ctx, false)) := by
  constructor
  · by_cases h : ctx.fullscreen = b
    · simp [SetWindowFullscreen, h]
    · by_cases hw : ctx.window = 0 <;> simp [SetWindowFullscreen, h, hw]
  · intro h
    simp [SetWindowFullscreen, h]

/-- Witness for C9: a windowed context toggled to fullscreen twice, and a
matching-state call that is a no-op. -/
theorem fullscreen_idempotent_witness :
    SetWindowFullscreen (SetWindowFullscreen windowedContext true).1 true =
      ((SetWindowFullscreen windowedContext true).1, false) ∧
    windowedContext.fullscreen = false ∧
    SetWindowFullscreen windowedContext false = (windowedContext, false) := by
  have T1 := fullscreen_idempotent windowedContext true
  have T2 := fullscreen_idempotent windowedContext false
  exact ⟨T1.1, rfl, T2.2 rfl⟩

end VEK
